import Mathlib

set_option maxRecDepth 100000

/-!
Verification of the aion-pay frontend domain logic.

The TypeScript sources (src/lib/contractUtils.ts, src/pages/borrow/Dashboard.tsx
and the unnamed staking component) are embedded shallowly below.  JavaScript
numbers are IEEE-754 binary64 doubles; they are modelled exactly as pairs
mantissa * 2^exponent of integers, with every arithmetic operator applying
round-to-nearest, ties-to-even, to the exact result — precisely the IEEE
semantics in the binary64 normal range.  Overflow to infinity and subnormal
underflow are outside every magnitude this development manipulates and are not
modelled.  NaN is modelled explicitly because the sources can produce it
(parseInt on a non-numeric string, arithmetic on NaN).
-/

namespace AionPay

/-! ## Bit lengths and binary64 rounding -/

/-- Number of binary digits, computed with explicit fuel (the argument halves
every step, so fuel `n` would suffice; a fixed fuel keeps kernel reduction
cheap). -/
def bitsAux : ℕ → ℕ → ℕ
  | 0, _ => 0
  | fuel + 1, n => if n = 0 then 0 else bitsAux fuel (n / 2) + 1

/-- Bit length of a natural number.  Fuel 320 covers every magnitude reachable
in this development (all modelled values stay far below 2^320). -/
def natBits (n : ℕ) : ℕ := bitsAux 320 n

/-- Round the positive rational `n1 / n2` to a 53-bit significand, nearest,
ties to even: returns `(m, e)` with `m * 2^e` the rounded value and
`2^52 ≤ m < 2^53`.  This is IEEE-754 binary64 rounding of a positive real.
The `max 1` is a no-op (the significand estimate always lands in
`[2^52, 2^54)`); it makes positivity of the result definitional. -/
def rnd53Pair (n1 n2 : ℕ) : ℕ × ℤ :=
  let s : ℤ := 53 - ((natBits n1 : ℤ) - (natBits n2 : ℤ))
  let num := if 0 ≤ s then n1 * 2 ^ s.toNat else n1
  let den := if 0 ≤ s then n2 else n2 * 2 ^ (-s).toNat
  let q := num / den
  let r := num % den
  if q < 2 ^ 53 then
    let q2 := if den < 2 * r then q + 1 else if 2 * r < den then q
              else if q % 2 = 0 then q else q + 1
    if q2 = 2 ^ 53 then (2 ^ 52, 1 - s) else (max 1 q2, -s)
  else
    let qh := q / 2
    let q2 := if q % 2 = 1 then (if 0 < r then qh + 1 else if qh % 2 = 0 then qh else qh + 1)
              else qh
    if q2 = 2 ^ 53 then (2 ^ 52, 2 - s) else (max 1 q2, 1 - s)

/-- A JavaScript number: NaN, or a finite binary64 value `m * 2^e`.  Finite
values built by the operations below are kept in canonical form (`m = e = 0`,
or `2^52 ≤ |m| < 2^53`), so structural equality of results coincides with
value equality. -/
inductive JSNum where
  | nan : JSNum
  | num : ℤ → ℤ → JSNum
deriving DecidableEq

/-- Round `m * 2^e` to a canonical finite binary64 value. -/
def mkF (m : ℤ) (e : ℤ) : JSNum :=
  if m = 0 then .num 0 0
  else
    let p := rnd53Pair m.natAbs 1
    .num (if m < 0 then -(p.1 : ℤ) else (p.1 : ℤ)) (e + p.2)

/-- The double holding the integer `n` (exact for `|n| < 2^53`, rounded above,
as in JavaScript). -/
def intF (n : ℤ) : JSNum := mkF n 0

/-- The difference `m1 * 2^e1 - m2 * 2^e2`, scaled by `2^-min(e1,e2)` so it is
an integer: its sign decides every value comparison. -/
def alignDiff (m1 e1 m2 e2 : ℤ) : ℤ :=
  if e2 ≤ e1 then m1 * 2 ^ (e1 - e2).toNat - m2 else m1 - m2 * 2 ^ (e2 - e1).toNat

/-- The sum `m1 * 2^e1 + m2 * 2^e2`, scaled by `2^-min(e1,e2)` so it is an
integer. -/
def alignSum (m1 e1 m2 e2 : ℤ) : ℤ :=
  if e2 ≤ e1 then m1 * 2 ^ (e1 - e2).toNat + m2 else m1 + m2 * 2 ^ (e2 - e1).toNat

/-- Value comparison `<` on JavaScript numbers; any comparison with NaN is
false, as in JavaScript. -/
def jsLtB : JSNum → JSNum → Bool
  | .num m1 e1, .num m2 e2 => decide (alignDiff m1 e1 m2 e2 < 0)
  | _, _ => false

/-- Value comparison `≤`; false whenever NaN is involved. -/
def jsLeB : JSNum → JSNum → Bool
  | .num m1 e1, .num m2 e2 => decide (alignDiff m1 e1 m2 e2 ≤ 0)
  | _, _ => false

/-- Value comparison `>`. -/
def jsGtB (a b : JSNum) : Bool := jsLtB b a

/-- JavaScript strict equality `===` on numbers (value equality; false for
NaN, even against itself). -/
def jsEqB : JSNum → JSNum → Bool
  | .num m1 e1, .num m2 e2 => decide (alignDiff m1 e1 m2 e2 = 0)
  | _, _ => false

/-- JavaScript addition with binary64 rounding. -/
def jsAdd : JSNum → JSNum → JSNum
  | .num m1 e1, .num m2 e2 => mkF (alignSum m1 e1 m2 e2) (min e1 e2)
  | _, _ => .nan

/-- JavaScript negation (exact). -/
def jsNeg : JSNum → JSNum
  | .num m e => .num (-m) e
  | .nan => .nan

/-- JavaScript subtraction. -/
def jsSub (a b : JSNum) : JSNum := jsAdd a (jsNeg b)

/-- JavaScript multiplication with binary64 rounding. -/
def jsMul : JSNum → JSNum → JSNum
  | .num m1 e1, .num m2 e2 => mkF (m1 * m2) (e1 + e2)
  | _, _ => .nan

/-- JavaScript division with binary64 rounding.  Division by zero (which would
give an infinity) is not reachable in the embedded code — every divisor is a
nonzero constant — and is mapped to NaN. -/
def jsDiv : JSNum → JSNum → JSNum
  | .num m1 e1, .num m2 e2 =>
    if m2 = 0 then .nan
    else if m1 = 0 then .num 0 0
    else
      let p := rnd53Pair m1.natAbs m2.natAbs
      .num (if (m1 < 0) = (m2 < 0) then (p.1 : ℤ) else -(p.1 : ℤ)) (e1 - e2 + p.2)
  | _, _ => .nan

/-- `Math.floor` (exact on doubles; NaN propagates). -/
def jsFloor : JSNum → JSNum
  | .num m e => if 0 ≤ e then .num m e else mkF (Int.ediv m (2 ^ (-e).toNat)) 0
  | .nan => .nan

/-- The integer value of a finite integral double (used after `Math.floor`). -/
def floorInt : JSNum → ℤ
  | .num m e => if 0 ≤ e then m * 2 ^ e.toNat else Int.ediv m (2 ^ (-e).toNat)
  | .nan => 0

/-- `Math.min` (NaN propagates). -/
def jsMin (a b : JSNum) : JSNum :=
  match a, b with
  | .num _ _, .num _ _ => if jsLtB b a then b else a
  | _, _ => .nan

/-- `Math.max` (NaN propagates). -/
def jsMax (a b : JSNum) : JSNum :=
  match a, b with
  | .num _ _, .num _ _ => if jsLtB a b then b else a
  | _, _ => .nan

/-- JavaScript falsiness of a number: `0`, `-0` and `NaN` are falsy. -/
def jsFalsy : JSNum → Bool
  | .num m _ => decide (m = 0)
  | .nan => true

/-- Shortest round-trip digit search of Number::toString: find the decimal
`s * 10^j` with the fewest significant digits whose nearest double is the
value `v` (a positive integer with unit-in-the-last-place `ulp = 2^e`, or
`ulp = 0` for an exactly representable value below 2^53).  The rounding
window around `v` is closed exactly when the mantissa is even
(ties-to-even), and its lower half shrinks to `ulp/4` when the mantissa is a
power of two (`pow2low`), where the downward neighbour gap halves.  `j`
descends from the digit count of `v`, so the first hit has minimal digits;
at each `j` both enclosing candidates are tested and the closer one (ties to
even) is chosen, as the ECMAScript algorithm requires. -/
def shortestAux (v ulp : ℕ) (mEven pow2low : Bool) : ℕ → ℕ × ℕ
  | 0 => (v, 0)
  | j + 1 =>
    let p := 10 ^ (j + 1)
    let q := v / p
    let r := v % p
    let downValid := if pow2low then decide (4 * r ≤ ulp)
                     else if mEven then decide (2 * r ≤ ulp)
                     else decide (2 * r < ulp)
    let upValid := if mEven then decide (2 * (p - r) ≤ ulp)
                   else decide (2 * (p - r) < ulp)
    if downValid && upValid then
      if r < p - r then (q, j + 1)
      else if p - r < r then (q + 1, j + 1)
      else if q % 2 = 0 then (q, j + 1) else (q + 1, j + 1)
    else if downValid then (q, j + 1)
    else if upValid then (q + 1, j + 1)
    else shortestAux v ulp mEven pow2low j

/-- Number::toString of a positive integral double value: shortest round-trip
digits, rendered in plain decimal when the decimal exponent is at most 21 and
in exponential `d.ddde+NN` form above, as ECMAScript specifies. -/
def jsPosString (v ulp : ℕ) (mEven pow2low : Bool) : String :=
  let p := shortestAux v ulp mEven pow2low ((Nat.repr v).length - 1)
  let str := Nat.repr p.1
  let n := p.2 + str.length
  if n ≤ 21 then Nat.repr (p.1 * 10 ^ p.2)
  else
    (if str.length = 1 then str else str.take 1 ++ "." ++ str.drop 1)
      ++ "e+" ++ Nat.repr (n - 1)

/-- `Number.prototype.toString` for the values the sources stringify:
NaN prints as "NaN"; an integer-valued double prints its shortest round-trip
decimal form, switching to exponential notation at magnitude 10^21 (so
`(-1e21).toString()` is "-1e+21").  A non-integral value (never stringified
by the sources, which only render Math.floor results) is rendered through its
floor. -/
def jsNumToString : JSNum → String
  | .nan => "NaN"
  | .num m e =>
    let n := floorInt (.num m e)
    let ulp := if 0 ≤ e then 2 ^ e.toNat else 0
    if n = 0 then "0"
    else if n < 0 then
      "-" ++ jsPosString n.natAbs ulp (decide (m % 2 = 0)) (decide (m.natAbs = 2 ^ 52))
    else jsPosString n.natAbs ulp (decide (m % 2 = 0)) (decide (m.natAbs = 2 ^ 52))

/-! ## Strings: substring search, truthy defaulting, parseInt -/

/-- Does `hay` start with `needle`? -/
def subAt : List Char → List Char → Bool
  | [], _ => true
  | _ :: _, [] => false
  | a :: as, b :: bs => a = b && subAt as bs

/-- Does the list contain `needle` as a contiguous run? -/
def hasSub (needle : List Char) : List Char → Bool
  | [] => subAt needle []
  | c :: cs => subAt needle (c :: cs) || hasSub needle cs

/-- `String.prototype.includes`. -/
def strContains (hay needle : String) : Bool := hasSub needle.toList hay.toList

/-- JavaScript `a || b` for an optional string `a`: the empty string is falsy,
so it also falls through to the default. -/
def jsOrStr (a : Option String) (b : String) : String :=
  match a with
  | some s => if s = "" then b else s
  | none => b

/-- Value of a leading run of decimal digits; `none` when there is none. -/
def digitsVal (cs : List Char) : Option ℕ :=
  let ds := cs.takeWhile Char.isDigit
  if ds.isEmpty then none
  else some (ds.foldl (fun a c => a * 10 + (c.toNat - 48)) 0)

/-- `parseInt(s, 10)`: skip leading whitespace, optional sign, longest digit
run; NaN when no digits follow.  (The sources only pass radix 10 or decimal
digit strings, so the radix-guessing branch of the builtin is not modelled.) -/
def parseIntJS (s : String) : JSNum :=
  match s.toList.dropWhile Char.isWhitespace with
  | '-' :: rest =>
    match digitsVal rest with
    | none => .nan
    | some v => intF (-(v : ℤ))
  | '+' :: rest =>
    match digitsVal rest with
    | none => .nan
    | some v => intF (v : ℤ)
  | cs =>
    match digitsVal cs with
    | none => .nan
    | some v => intF (v : ℤ)

/-! ## Unit conversion (contractUtils.ts lines 12–20) -/

/-- A value that is either a string or a number, as in the TypeScript union
`string | number`. -/
inductive StrOrNum where
  | str : String → StrOrNum
  | num : JSNum → StrOrNum

/-- `usdcToUnits` (contractUtils.ts 12–15): `Math.floor(usdcAmount * 1000000)`
rendered with `toString()`. -/
def usdcToUnits (usdcAmount : JSNum) : String :=
  jsNumToString (jsFloor (jsMul usdcAmount (intF 1000000)))

/-- `unitsToUsdc` (contractUtils.ts 17–20): `parseInt` a string input, then
divide by 1 000 000. -/
def unitsToUsdc : StrOrNum → JSNum
  | .str s => jsDiv (parseIntJS s) (intF 1000000)
  | .num n => jsDiv n (intF 1000000)

/-! ## The credit-state reader (contractUtils.ts 123–215) -/

/-- Outcome of one read-only ledger query: the decoded value, or a rejection
carrying the error message the catch blocks inspect. -/
inductive QueryResult (α : Type) where
  | ok : α → QueryResult α
  | err : String → QueryResult α
deriving DecidableEq

/-- The raw tuple returned by `credit_manager::get_credit_info`:
`(initial_collateral, credit_limit, borrowed, interest, total_repaid,
due_date, is_active)`, the first six as decimal strings. -/
structure RawCreditInfo where
  collateralDeposited : String
  creditLimit : String
  borrowedAmount : String
  totalInterest : String
  totalRepaid : String
  repaymentDueDate : String
  isActive : Bool
deriving DecidableEq

/-- The ledger responses relevant to one credit-state read: the
`credit_manager::is_paused` probe and the `get_credit_info` query. -/
structure CreditChain where
  isPausedResult : QueryResult Bool
  creditInfoResult : QueryResult RawCreditInfo
deriving DecidableEq

/-- `checkCreditManagerInitialized` (contractUtils.ts 196–215): true when the
probe query resolves.  The catch block classifies the error message
("Failed to borrow global resource" / "resource_not_found" /
"Resource not found" versus anything else) but both branches are empty, so it
returns false for every error class. -/
def checkCreditManagerInitialized (c : CreditChain) : Bool :=
  match c.isPausedResult with
  | .ok _ => true
  | .err _ => false

/-- The snapshot object produced by `getCreditLineInfo`. -/
structure CreditPosition where
  creditLimit : JSNum
  currentDebt : JSNum
  borrowed : JSNum
  interestAccrued : JSNum
  availableCredit : JSNum
  isActive : Bool
  repaymentDueDate : JSNum
  collateral : JSNum
  totalRepaid : JSNum
deriving DecidableEq

/-- The inactive all-zero snapshot returned when the credit program is not
initialized (contractUtils.ts 139–149 and 180–190). -/
def zeroCreditPosition : CreditPosition :=
  { creditLimit := intF 0, currentDebt := intF 0, borrowed := intF 0,
    interestAccrued := intF 0, availableCredit := intF 0, isActive := false,
    repaymentDueDate := intF 0, collateral := intF 0, totalRepaid := intF 0 }

/-- `getCreditLineInfo` (contractUtils.ts 123–194).  The probe failing (any
error) yields the zero snapshot; a `get_credit_info` rejection yields the zero
snapshot when its message mentions a missing function, otherwise null. -/
def getCreditLineInfo (c : CreditChain) : Option CreditPosition :=
  if checkCreditManagerInitialized c = false then some zeroCreditPosition
  else
    match c.creditInfoResult with
    | .ok raw =>
      let creditLimitUsdc := unitsToUsdc (.str raw.creditLimit)
      let borrowedUsdc := unitsToUsdc (.str raw.borrowedAmount)
      let interestUsdc := unitsToUsdc (.str raw.totalInterest)
      let currentDebtUsdc := jsAdd borrowedUsdc interestUsdc
      let availableCredit := jsSub creditLimitUsdc currentDebtUsdc
      some
        { creditLimit := creditLimitUsdc
          currentDebt := currentDebtUsdc
          borrowed := borrowedUsdc
          interestAccrued := interestUsdc
          availableCredit := jsMax (intF 0) availableCredit
          isActive := raw.isActive
          repaymentDueDate := parseIntJS raw.repaymentDueDate
          collateral := unitsToUsdc (.str raw.collateralDeposited)
          totalRepaid := unitsToUsdc (.str raw.totalRepaid) }
    | .err msg =>
      if strContains msg "Function not found" || strContains msg "FUNCTION_NOT_FOUND" then
        some zeroCreditPosition
      else none

/-! ## Collateral status (contractUtils.ts 980–1018) -/

/-- The record produced by `checkCollateralStatus`. -/
structure CollateralStatusRec where
  hasActiveCreditLine : Bool
  collateralAmount : JSNum
  creditLimit : JSNum
  currentDebt : JSNum
  availableCredit : JSNum
  canWithdraw : JSNum
deriving DecidableEq

/-- `checkCollateralStatus` (contractUtils.ts 980–1018).  `getCreditLineInfo`
never throws in this model, so the catch path returning null is unreachable
and the result is total.  `canWithdraw` is collateral at exactly zero debt,
else 0. -/
def checkCollateralStatus (c : CreditChain) : CollateralStatusRec :=
  match getCreditLineInfo c with
  | none =>
    { hasActiveCreditLine := false, collateralAmount := intF 0,
      creditLimit := intF 0, currentDebt := intF 0,
      availableCredit := intF 0, canWithdraw := intF 0 }
  | some ci =>
    let canWithdraw := if jsEqB ci.currentDebt (intF 0) then ci.collateral else intF 0
    { hasActiveCreditLine := ci.isActive, collateralAmount := ci.collateral,
      creditLimit := ci.creditLimit, currentDebt := ci.currentDebt,
      availableCredit := ci.availableCredit, canWithdraw := canWithdraw }

/-! ## Interest accrual (contractUtils.ts 372–389) -/

/-- `calculateAccruedInterest` (contractUtils.ts 372–389).  The reading of the
wall clock `Math.floor(Date.now() / 1000)` is passed in as `currentTime`; the
grace period defaults to 2 592 000 seconds at every call site. -/
def calculateAccruedInterest (principalUsdc annualRateBasisPoints borrowTimestamp
    gracePeriodSeconds currentTime : JSNum) : JSNum :=
  let graceEndTime := jsAdd borrowTimestamp gracePeriodSeconds
  if jsLeB currentTime graceEndTime then intF 0
  else
    let timeElapsed := jsSub currentTime graceEndTime
    let rate := jsDiv annualRateBasisPoints (intF 10000)
    let dailyRate := jsDiv rate (intF 31536000)
    jsMul (jsMul principalUsdc dailyRate) timeElapsed

/-- The interest formula of `calculateAccruedInterest` evaluated in exact
rational arithmetic (the ideal semantics of the same expression, used to state
linearity, which binary64 rounding only approximates). -/
def accruedInterestExact (p r t0 g ct : ℚ) : ℚ :=
  if ct ≤ t0 + g then 0 else p * (r / 10000 / 31536000) * (ct - (t0 + g))

/-! ## Exact-arithmetic unit conversion (ideal semantics of lines 12–20) -/

/-- The formula of `usdcToUnits` in exact rational arithmetic:
`⌊amount * 1000000⌋`. -/
def usdcToUnitsExact (q : ℚ) : ℤ := ⌊q * 1000000⌋

/-- The formula of `unitsToUsdc` in exact rational arithmetic. -/
def unitsToUsdcExact (n : ℤ) : ℚ := (n : ℚ) / 1000000

/-! ## USDC balance reader (contractUtils.ts 22–61) -/

/-- The USDC metadata address constant (contractUtils.ts line 7). -/
def USDC_METADATA : String := "0xbae207659db88bea0cbead6da0ed00aac12edcdda169e591cd41c94180b46f3b"

/-- One entry of the account-resources response, with the fields the fallback
probe inspects (`type`, `data.coin?.value`, `data.balance`). -/
structure FungibleResource where
  type : String
  coinValue : Option String
  balance : Option String
deriving DecidableEq

/-- The `/resources` fetch after `.then(res => res.json()).catch(() => [])`:
either a JSON array (a rejected fetch yields the empty array via the catch) or
a non-array JSON value, on which `.find` throws a TypeError. -/
inductive ResourcesFetch where
  | array : List FungibleResource → ResourcesFetch
  | nonArray : ResourcesFetch
deriving DecidableEq

/-- The external responses one `fetchUsdcBalance` call can observe: the
primary `0x1::primary_fungible_store::balance` view, the `/resources` fetch,
and `coinStoreResponse?.data?.coin?.value` of the CoinStore fetch (`none` when
that fetch rejected — giving `null` — or the shape is missing). -/
structure BalanceEnv where
  viewResult : QueryResult String
  resourcesFetch : ResourcesFetch
  coinStoreValue : Option String
deriving DecidableEq

/-- The predicate of `allResources.find` (contractUtils.ts 38–43). -/
def usdcResourceCheck (r : FungibleResource) : Bool :=
  strContains r.type USDC_METADATA ||
  (strContains r.type "coin::CoinStore" && strContains r.type.toLower "usdc") ||
  strContains r.type "0x1::coin::CoinStore<0x"

/-- `fetchUsdcBalance` (contractUtils.ts 22–61).  Every branch of the nested
try/catch structure resolves to a number; a non-array `/resources` body makes
`.find` throw, which the inner catch swallows before the final `return 0`. -/
def fetchUsdcBalance (env : BalanceEnv) : JSNum :=
  match env.viewResult with
  | .ok balanceStr => jsDiv (parseIntJS balanceStr) (intF 1000000)
  | .err _ =>
    match env.resourcesFetch with
    | .nonArray => intF 0
    | .array rs =>
      match rs.find? usdcResourceCheck with
      | some r => jsDiv (parseIntJS (jsOrStr r.coinValue (jsOrStr r.balance "0"))) (intF 1000000)
      | none =>
        match env.coinStoreValue with
        | some v => if v = "" then intF 0 else jsDiv (parseIntJS v) (intF 1000000)
        | none => intF 0

/-! ## Activity history reconciler (contractUtils.ts 1199–1288) -/

/-- The contract address constant (contractUtils.ts line 3, default value of
the environment override). -/
def CONTRACT_ADDRESS : String :=
  "0xceb67803c3af67e2031e319f021e693ead697dda75e59a7b85a7e75a1cda4d78"

/-- The `RecentTransaction.type` union (contractUtils.ts 1199–1205). -/
inductive TxKind where
  | borrow | payment | repay | stake | collateralWithdrawn | creditOpened
deriving DecidableEq

/-- `EVENT_TYPE_MAP` (contractUtils.ts 1207–1214) as a lookup on the full
event type string. -/
def eventTypeMap (t : String) : Option TxKind :=
  if t = CONTRACT_ADDRESS ++ "::credit_manager::BorrowedEvent" then some .borrow
  else if t = CONTRACT_ADDRESS ++ "::credit_manager::DirectPaymentEvent" then some .payment
  else if t = CONTRACT_ADDRESS ++ "::credit_manager::RepaidEvent" then some .repay
  else if t = CONTRACT_ADDRESS ++ "::credit_manager::CollateralAddedEvent" then some .stake
  else if t = CONTRACT_ADDRESS ++ "::credit_manager::CollateralWithdrawnEvent" then some .collateralWithdrawn
  else if t = CONTRACT_ADDRESS ++ "::credit_manager::CreditOpenedEvent" then some .creditOpened
  else none

/-- One event of a ledger transaction, with the `data` fields the reconciler
reads (each may be absent). -/
structure ChainEvent where
  type : String
  borrower : Option String
  amount : Option String
  principalAmount : Option String
  interestAmount : Option String
  collateralAmount : Option String
deriving DecidableEq

/-- One transaction of the account-transactions response. -/
structure ChainTxn where
  success : Bool
  events : Option (List ChainEvent)
  timestamp : Option String
  version : Option String
deriving DecidableEq

/-- One normalized activity record (contractUtils.ts 1199–1205). -/
structure RecentTransaction where
  type : TxKind
  amount : JSNum
  date : String
  status : String
  hash : Option String
deriving DecidableEq

/-- Stand-in for `new Date(ts * 1000).toLocaleDateString(...)`: locale
calendar rendering is outside this embedding; no claim depends on its text,
only on which branch of `formatTimestamp` is taken. -/
def localeDateString (timestampSecs : JSNum) : String :=
  "date " ++ jsNumToString (jsFloor timestampSecs)

/-- `formatTimestamp` (contractUtils.ts 1276–1288); `now` models
`Math.floor(Date.now() / 1000)`. -/
def formatTimestamp (now timestampSecs : JSNum) : String :=
  if jsEqB timestampSecs (intF 0) then "Unknown"
  else
    let diffSecs := jsSub now timestampSecs
    if jsLtB diffSecs (intF 60) then "Just now"
    else if jsLtB diffSecs (intF 3600) then
      jsNumToString (jsFloor (jsDiv diffSecs (intF 60))) ++ " min ago"
    else if jsLtB diffSecs (intF 86400) then
      jsNumToString (jsFloor (jsDiv diffSecs (intF 3600))) ++ " hours ago"
    else if jsLtB diffSecs (intF 604800) then
      jsNumToString (jsFloor (jsDiv diffSecs (intF 86400))) ++ " days ago"
    else localeDateString timestampSecs

/-- The per-event body of the reconciliation loop (contractUtils.ts
1237–1264): type lookup, borrower check (JavaScript truthiness: an absent or
empty-string borrower is not checked), amount extraction, record assembly.
`none` models `continue`. -/
def eventToRecord (now : JSNum) (borrowerAddress : String) (txn : ChainTxn)
    (event : ChainEvent) : Option RecentTransaction :=
  match eventTypeMap event.type with
  | none => none
  | some txType =>
    let borrowerMismatch :=
      match event.borrower with
      | some b => if b = "" then false else decide (b ≠ borrowerAddress)
      | none => false
    if borrowerMismatch then none
    else
      let timestamp := jsDiv (parseIntJS (jsOrStr txn.timestamp "0")) (intF 1000000)
      let amount :=
        match txType with
        | .repay =>
          let principal := parseIntJS (jsOrStr event.principalAmount "0")
          let interest := parseIntJS (jsOrStr event.interestAmount "0")
          unitsToUsdc (.num (jsAdd principal interest))
        | .creditOpened => unitsToUsdc (.str (jsOrStr event.collateralAmount "0"))
        | _ => unitsToUsdc (.str (jsOrStr event.amount "0"))
      some
        { type := txType, amount := amount,
          date := formatTimestamp now timestamp,
          status := "completed", hash := txn.version }

/-- Records contributed by one transaction: none when it has no events field
or its failure flag is set (contractUtils.ts 1235). -/
def txnRecords (now : JSNum) (borrowerAddress : String) (txn : ChainTxn) :
    List RecentTransaction :=
  match txn.events with
  | none => []
  | some evs =>
    if txn.success = false then []
    else evs.filterMap (eventToRecord now borrowerAddress txn)

/-- The accumulation loop of `getRecentTransactions`, stopping at the end of a
transaction once `limit` records are collected (contractUtils.ts 1234–1267). -/
def processTxns (now : JSNum) (borrowerAddress : String) (limit : ℕ) :
    List ChainTxn → List RecentTransaction → List RecentTransaction
  | [], acc => acc
  | t :: rest, acc =>
    let acc2 := acc ++ txnRecords now borrowerAddress t
    if limit ≤ acc2.length then acc2
    else processTxns now borrowerAddress limit rest acc2

/-- `getRecentTransactions` (contractUtils.ts 1216–1274).  The network layer
is abstracted to the parsed response: `none` models a failed fetch (the
`!response.ok` and catch paths, both returning `[]`).  The requested `limit`
defaults to 20 at the call sites. -/
def getRecentTransactions (now : JSNum) (borrowerAddress : String) (limit : ℕ)
    (response : Option (List ChainTxn)) : List RecentTransaction :=
  match response with
  | none => []
  | some txns => (processTxns now borrowerAddress limit txns []).take limit

/-! ## Repayment allocator (Dashboard.tsx 128–173) -/

/-- The two repayment modes of the outstanding-loan card. -/
inductive RepayMode where
  | full | custom
deriving DecidableEq

/-- What `handleRepay` does: invoke `onRepay(principal, interest)` or show a
toast error and stop before any payload is built. -/
inductive RepayOutcome where
  | rejected : String → RepayOutcome
  | repay : JSNum → JSNum → RepayOutcome
deriving DecidableEq

/-- `OutstandingLoanCard.handleRepay` (Dashboard.tsx 151–173).  The custom
amount is `parseFloat(customAmount)`, passed here already parsed; `!amount`
is JavaScript truthiness (0, -0 and NaN are falsy). -/
def handleRepay (mode : RepayMode) (principal interest usdcBalance amount : JSNum) :
    RepayOutcome :=
  match mode with
  | .full => .repay principal interest
  | .custom =>
    let totalDebt := jsAdd principal interest
    if jsFalsy amount || jsLeB amount (intF 0) then
      .rejected "Please enter a valid repayment amount"
    else if jsGtB amount totalDebt then .rejected "Amount exceeds total debt"
    else if jsGtB amount usdcBalance then .rejected "Insufficient USDC balance"
    else
      let interestPayment := jsMin amount interest
      let principalPayment := jsSub amount interestPayment
      .repay principalPayment interestPayment

/-! ## Withdraw validation (StakeCollateral component, handleWithdrawCollateral) -/

/-- The user-facing errors `handleWithdrawCollateral` can set.  The
`maxWithdrawable` message interpolates `collateralStatus?.canWithdraw || 0`;
the interpolated value is carried, its locale rendering is not modelled. -/
inductive WithdrawError where
  | connectWallet
  | invalidAmount
  | maxWithdrawable : JSNum → WithdrawError
deriving DecidableEq

/-- What `handleWithdrawCollateral` does: set an error and return before any
network call, or proceed to `withdrawCollateral` with the parsed amount. -/
inductive WithdrawOutcome where
  | errorMsg : WithdrawError → WithdrawOutcome
  | submit : JSNum → WithdrawOutcome
deriving DecidableEq

/-- JavaScript `a || b` on numbers (0, -0 and NaN are falsy). -/
def jsOrNum (a b : JSNum) : JSNum := if jsFalsy a then b else a

/-- `handleWithdrawCollateral` (StakeCollateral component, lines 153–193).
The amount is `parseFloat(amount)`, passed here already parsed. -/
def handleWithdrawCollateral (connected hasAccount : Bool)
    (collateralStatus : Option CollateralStatusRec) (amountNum : JSNum) :
    WithdrawOutcome :=
  if connected = false || hasAccount = false then .errorMsg .connectWallet
  else if jsFalsy amountNum || jsLeB amountNum (intF 0) then .errorMsg .invalidAmount
  else
    match collateralStatus with
    | none => .errorMsg (.maxWithdrawable (intF 0))
    | some st =>
      if jsGtB amountNum st.canWithdraw then
        .errorMsg (.maxWithdrawable (jsOrNum st.canWithdraw (intF 0)))
      else .submit amountNum

/-! ## Helper lemmas about the numeric model -/

theorem rnd53Pair_fst_pos (n1 n2 : ℕ) : 0 < (rnd53Pair n1 n2).1 := by
  unfold rnd53Pair
  dsimp only
  split_ifs <;> norm_num

theorem mkF_pos {m : ℤ} (e : ℤ) (h : 0 < m) :
    ∃ q ex, mkF m e = .num q ex ∧ 0 < q := by
  have h1 : ¬ (m = 0) := by omega
  have h2 : ¬ (m < 0) := by omega
  simp only [mkF, if_neg h1, if_neg h2]
  exact ⟨_, _, rfl, by exact_mod_cast rnd53Pair_fst_pos m.natAbs 1⟩

theorem mkF_neg {m : ℤ} (e : ℤ) (h : m < 0) :
    ∃ q ex, mkF m e = .num q ex ∧ q < 0 := by
  have h1 : ¬ (m = 0) := by omega
  simp only [mkF, if_neg h1, if_pos h]
  refine ⟨_, _, rfl, ?_⟩
  have := rnd53Pair_fst_pos m.natAbs 1
  omega

theorem alignDiff_swap (m1 e1 m2 e2 : ℤ) :
    alignDiff m2 e2 m1 e1 = -(alignDiff m1 e1 m2 e2) := by
  unfold alignDiff
  rcases lt_trichotomy e1 e2 with hc | hc | hc
  · rw [if_pos (le_of_lt hc), if_neg (by omega)]
    ring
  · subst hc
    simp [sub_self]
  · rw [if_neg (by omega), if_pos (le_of_lt hc)]
    ring

theorem alignSum_neg_eq_diff (m1 e1 m2 e2 : ℤ) :
    alignSum m1 e1 (-m2) e2 = alignDiff m1 e1 m2 e2 := by
  unfold alignSum alignDiff
  split_ifs <;> ring

theorem alignDiff_zero_right (m e : ℤ) :
    alignDiff m e 0 0 = if 0 ≤ e then m * 2 ^ e.toNat else m := by
  unfold alignDiff
  split_ifs <;> simp

theorem alignDiff_zero_right_sign {m e : ℤ} :
    (0 < alignDiff m e 0 0 ↔ 0 < m) ∧ (alignDiff m e 0 0 = 0 ↔ m = 0) := by
  rw [alignDiff_zero_right]
  split
  · have hp : (0 : ℤ) < 2 ^ e.toNat := by positivity
    constructor
    · constructor
      · intro h; nlinarith
      · intro h; nlinarith
    · constructor
      · intro h
        rcases mul_eq_zero.mp h with h2 | h2
        · exact h2
        · omega
      · intro h; simp [h]
  · exact ⟨Iff.rfl, Iff.rfl⟩

theorem jsGtB_zero_iff (q ex : ℤ) : jsGtB (.num q ex) (intF 0) = true ↔ 0 < q := by
  show jsLtB (.num 0 0) (.num q ex) = true ↔ 0 < q
  simp only [jsLtB]
  rw [alignDiff_swap]
  simp only [decide_eq_true_eq, neg_lt, neg_zero]
  exact alignDiff_zero_right_sign.1

theorem jsGtB_zero_shape {a : JSNum} (h : jsGtB a (intF 0) = true) :
    ∃ m e, a = .num m e ∧ 0 < m := by
  match a with
  | .nan => simp [jsGtB, jsLtB] at h
  | .num m e => exact ⟨m, e, rfl, (jsGtB_zero_iff m e).mp h⟩

theorem jsLeB_zero_of_pos {m e : ℤ} (h : 0 < m) :
    jsLeB (.num m e) (intF 0) = false := by
  show jsLeB (.num m e) (.num 0 0) = false
  simp only [jsLeB]
  simp only [decide_eq_false_iff_not, not_le]
  exact alignDiff_zero_right_sign.1.mpr h

theorem jsEqB_zero_iff (m e : ℤ) : jsEqB (.num m e) (intF 0) = true ↔ m = 0 := by
  show jsEqB (.num m e) (.num 0 0) = true ↔ m = 0
  simp only [jsEqB]
  simp only [decide_eq_true_eq]
  exact alignDiff_zero_right_sign.2

theorem jsFalsy_of_pos {m e : ℤ} (h : 0 < m) : jsFalsy (.num m e) = false := by
  simp only [jsFalsy]
  simp only [decide_eq_false_iff_not]
  omega

theorem jsMul_pos {m1 e1 m2 e2 : ℤ} (h1 : 0 < m1) (h2 : 0 < m2) :
    ∃ q ex, jsMul (.num m1 e1) (.num m2 e2) = .num q ex ∧ 0 < q := by
  simp only [jsMul]
  exact mkF_pos _ (mul_pos h1 h2)

theorem jsDiv_pos {m1 e1 m2 e2 : ℤ} (h1 : 0 < m1) (h2 : 0 < m2) :
    ∃ q ex, jsDiv (.num m1 e1) (.num m2 e2) = .num q ex ∧ 0 < q := by
  have hs : ((m1 < 0) = (m2 < 0)) := by
    simp only [eq_iff_iff]
    omega
  simp only [jsDiv, if_neg (show ¬ (m2 = 0) by omega), if_neg (show ¬ (m1 = 0) by omega),
    if_pos hs]
  exact ⟨_, _, rfl, by exact_mod_cast rnd53Pair_fst_pos m1.natAbs m2.natAbs⟩

theorem jsLeB_false_lt {m1 e1 m2 e2 : ℤ}
    (h : jsLeB (.num m1 e1) (.num m2 e2) = false) :
    jsLtB (.num m2 e2) (.num m1 e1) = true := by
  simp only [jsLeB] at h
  simp only [jsLtB]
  rw [alignDiff_swap]
  simp only [decide_eq_false_iff_not, not_le] at h
  simp only [decide_eq_true_eq]
  omega

theorem jsSub_pos_of_lt {m1 e1 m2 e2 : ℤ}
    (h : jsLtB (.num m2 e2) (.num m1 e1) = true) :
    ∃ q ex, jsSub (.num m1 e1) (.num m2 e2) = .num q ex ∧ 0 < q := by
  simp only [jsLtB] at h
  rw [alignDiff_swap] at h
  simp only [decide_eq_true_eq] at h
  show ∃ q ex, jsAdd (.num m1 e1) (.num (-m2) e2) = .num q ex ∧ 0 < q
  simp only [jsAdd]
  rw [alignSum_neg_eq_diff]
  exact mkF_pos _ (by omega)

theorem jsLtB_asymm {a b : JSNum} (h : jsLtB a b = true) : jsLtB b a = false := by
  match a, b with
  | .nan, _ => simp [jsLtB] at h
  | .num _ _, .nan => simp [jsLtB] at h
  | .num m1 e1, .num m2 e2 =>
    simp only [jsLtB] at h ⊢
    rw [alignDiff_swap]
    simp only [decide_eq_true_eq] at h
    simp only [decide_eq_false_iff_not, not_lt]
    omega

theorem jsMax_zero_not_lt_zero (x : JSNum) :
    jsLtB (jsMax (intF 0) x) (intF 0) = false := by
  match x with
  | .nan => rfl
  | .num m e =>
    show jsLtB (if jsLtB (.num 0 0) (.num m e) then .num m e else .num 0 0) (.num 0 0) = false
    split
    · next hlt => exact jsLtB_asymm hlt
    · rfl

theorem floorInt_neg {q ex : ℤ} (h : q < 0) : floorInt (.num q ex) < 0 := by
  simp only [floorInt]
  split
  · have hp : (0 : ℤ) < 2 ^ ex.toNat := by positivity
    nlinarith
  · have hb : (0 : ℤ) < 2 ^ (-ex).toNat := by positivity
    exact Int.ediv_neg' h hb

theorem floorInt_pos_nonneg {q ex : ℤ} (h : 0 ≤ q) : 0 ≤ floorInt (.num q ex) := by
  simp only [floorInt]
  split
  · positivity
  · exact Int.ediv_nonneg h (by positivity)

theorem nan_ne_dash_append (s : String) : "NaN" ≠ "-" ++ s := by
  intro hcontra
  have hd := congrArg String.data hcontra
  rw [String.data_append] at hd
  simp at hd

theorem processTxns_take (now : JSNum) (addr : String) (limit : ℕ) :
    ∀ (l : List ChainTxn) (acc : List RecentTransaction),
      (processTxns now addr limit l acc).take limit
        = (acc ++ l.flatMap (txnRecords now addr)).take limit := by
  intro l
  induction l with
  | nil =>
    intro acc
    simp [processTxns]
  | cons t rest ih =>
    intro acc
    simp only [processTxns]
    split
    · next h =>
      conv_rhs => rw [List.flatMap_cons, ← List.append_assoc]
      conv_rhs => rw [List.take_append_of_le_length h]
    · next h =>
      rw [ih]
      rw [List.flatMap_cons, ← List.append_assoc]

/-! ## Sample ledger data used by the witnesses -/

/-- A raw credit tuple with outstanding debt (collateral 100, limit 100,
borrowed 5, interest 1, all in USDC). -/
def rawWithDebt : RawCreditInfo :=
  { collateralDeposited := "100000000", creditLimit := "100000000",
    borrowedAmount := "5000000", totalInterest := "1000000",
    totalRepaid := "0", repaymentDueDate := "1700000000", isActive := true }

/-- A raw credit tuple with the debt fully repaid (collateral 250, limit 250). -/
def rawPaidOff : RawCreditInfo :=
  { collateralDeposited := "250000000", creditLimit := "250000000",
    borrowedAmount := "0", totalInterest := "0",
    totalRepaid := "30000000", repaymentDueDate := "0", isActive := true }

/-- A healthy chain whose borrower has outstanding debt. -/
def chainWithDebt : CreditChain :=
  { isPausedResult := .ok false, creditInfoResult := .ok rawWithDebt }

/-- A healthy chain whose borrower has no outstanding debt. -/
def chainPaidOff : CreditChain :=
  { isPausedResult := .ok false, creditInfoResult := .ok rawPaidOff }

/-! ## Claim C4: withdrawable collateral -/

/-- C4: for every credit snapshot, the withdrawable-collateral field computed
by `checkCollateralStatus` is 0 whenever `currentDebt > 0`, and equals the
collateral when `currentDebt = 0`. -/
theorem claim_C4 (c : CreditChain) :
    (jsGtB (checkCollateralStatus c).currentDebt (intF 0) = true →
      (checkCollateralStatus c).canWithdraw = intF 0) ∧
    ((checkCollateralStatus c).currentDebt = intF 0 →
      (checkCollateralStatus c).canWithdraw = (checkCollateralStatus c).collateralAmount) := by
  unfold checkCollateralStatus
  cases hg : getCreditLineInfo c with
  | none => exact ⟨fun _ => rfl, fun _ => rfl⟩
  | some ci =>
    dsimp only
    constructor
    · intro h
      obtain ⟨m, e, hme, hm⟩ := jsGtB_zero_shape h
      rw [hme, if_neg]
      intro hcontra
      exact absurd ((jsEqB_zero_iff m e).mp hcontra) (by omega)
    · intro h
      rw [h, if_pos (by decide)]

/-- Witness for C4 at two concrete ledger states: with outstanding debt the
withdrawable amount is zero; with the debt repaid it equals the collateral. -/
theorem claim_C4_witness :
    ((checkCollateralStatus chainWithDebt).canWithdraw = intF 0) ∧
    ((checkCollateralStatus chainPaidOff).canWithdraw
      = (checkCollateralStatus chainPaidOff).collateralAmount) :=
  ⟨(claim_C4 chainWithDebt).1 (by decide), (claim_C4 chainPaidOff).2 (by decide)⟩

/-! ## Claim C5: interest-first repayment allocation -/

/-- C5: a custom repayment amount with `0 < amount ≤ principal + interest` and
`amount ≤ balance` is allocated interest-first — `interestPortion =
min(amount, interest)`, `principalPortion = amount - interestPortion` — while
amounts above the total debt or the balance are rejected before any payload;
with principal 100 and interest 20, amount 50 allocates (interest 20,
principal 30) and amount 15 allocates (interest 15, principal 0). -/
theorem claim_C5 (principal interest usdcBalance amount : JSNum) :
    ((jsGtB amount (intF 0) = true →
      jsGtB amount (jsAdd principal interest) = false →
      jsGtB amount usdcBalance = false →
      handleRepay .custom principal interest usdcBalance amount
        = .repay (jsSub amount (jsMin amount interest)) (jsMin amount interest)) ∧
    ((jsGtB amount (jsAdd principal interest) || jsGtB amount usdcBalance) = true →
      ∀ pp ip, handleRepay .custom principal interest usdcBalance amount ≠ .repay pp ip)) ∧
    (handleRepay .custom (intF 100) (intF 20) (intF 1000) (intF 50)
      = .repay (intF 30) (intF 20) ∧
     handleRepay .custom (intF 100) (intF 20) (intF 1000) (intF 15)
      = .repay (intF 0) (intF 15)) := by
  constructor
  · constructor
    · intro hpos hdebt hbal
      obtain ⟨m, e, hme, hm⟩ := jsGtB_zero_shape hpos
      simp only [handleRepay]
      rw [hme] at hdebt hbal ⊢
      rw [jsFalsy_of_pos hm, jsLeB_zero_of_pos hm]
      simp only [Bool.or_self, Bool.false_or, if_false]
      rw [hdebt, hbal]
      simp
    · intro hrej pp ip
      simp only [handleRepay]
      rcases Bool.or_eq_true_iff.mp hrej with h | h
      · split_ifs <;> simp_all
      · split_ifs <;> simp_all
  · constructor
    · decide
    · decide

/-- Witness for C5: the allocation branch applied at amount 50 against
principal 100, interest 20, balance 1000. -/
theorem claim_C5_witness :
    handleRepay .custom (intF 100) (intF 20) (intF 1000) (intF 50)
      = .repay (jsSub (intF 50) (jsMin (intF 50) (intF 20))) (jsMin (intF 50) (intF 20)) :=
  ((claim_C5 (intF 100) (intF 20) (intF 1000) (intF 50)).1.1
    (by decide) (by decide) (by decide))

/-! ## Claim C6: withdraw validation -/

/-- C6: withdraw validation rejects every requested amount strictly greater
than the withdrawable-collateral value (in particular any positive amount when
that value is 0), reporting a user-facing error and never reaching the
network/signer call. -/
theorem claim_C6 (connected hasAccount : Bool) (st : CollateralStatusRec)
    (amountNum : JSNum) (h : jsGtB amountNum st.canWithdraw = true) :
    (∃ err, handleWithdrawCollateral connected hasAccount (some st) amountNum
        = .errorMsg err) ∧
    (∀ x, handleWithdrawCollateral connected hasAccount (some st) amountNum
        ≠ .submit x) := by
  have hmain : ∃ err, handleWithdrawCollateral connected hasAccount (some st) amountNum
      = .errorMsg err := by
    unfold handleWithdrawCollateral
    split_ifs with h1 h2
    · exact ⟨_, rfl⟩
    · exact ⟨_, rfl⟩
    · dsimp only
      simp only [h, if_true]
      exact ⟨_, rfl⟩
  obtain ⟨err, herr⟩ := hmain
  exact ⟨⟨err, herr⟩, fun x hcontra => by rw [herr] at hcontra; cases hcontra⟩

/-- Witness for C6: with zero withdrawable collateral, a withdraw of 1 USDC is
rejected with an error and no submission happens. -/
theorem claim_C6_witness :
    (∃ err, handleWithdrawCollateral true true
        (some (checkCollateralStatus chainWithDebt)) (intF 1) = .errorMsg err) ∧
    (∀ x, handleWithdrawCollateral true true
        (some (checkCollateralStatus chainWithDebt)) (intF 1) ≠ .submit x) :=
  claim_C6 true true (checkCollateralStatus chainWithDebt) (intF 1) (by decide)

/-! ## Claim C10: the balance reader never rejects -/

/-- Every fallback probe of `fetchUsdcBalance` fails: the resource scan finds
no USDC-shaped resource (or the body was not an array), and the CoinStore
response has no truthy value. -/
def fallbackProbesFail (env : BalanceEnv) : Prop :=
  (∀ rs, env.resourcesFetch = .array rs → rs.find? usdcResourceCheck = none) ∧
  (∀ v, env.coinStoreValue = some v → v = "")

/-- C10: when the primary balance query and every fallback probe fail,
`fetchUsdcBalance` resolves to the number 0 instead of propagating an
exception (the embedding is a total function by the catch structure), and a
reader cannot distinguish that outcome from a genuine zero balance. -/
theorem claim_C10 :
    (∀ (env : BalanceEnv) (msg : String), env.viewResult = .err msg →
      fallbackProbesFail env → fetchUsdcBalance env = intF 0) ∧
    fetchUsdcBalance ⟨.err "network timeout", .array [], none⟩
      = fetchUsdcBalance ⟨.ok "0", .array [], none⟩ := by
  constructor
  · intro env msg hview hfail
    obtain ⟨hres, hcoin⟩ := hfail
    unfold fetchUsdcBalance
    rw [hview]
    cases hr : env.resourcesFetch with
    | nonArray => rfl
    | array rs =>
      dsimp only
      rw [hres rs hr]
      cases hc : env.coinStoreValue with
      | none => rfl
      | some v =>
        rw [hcoin v hc]
        rfl
  · decide

/-- Witness for C10 at a concrete total-failure environment. -/
theorem claim_C10_witness :
    fetchUsdcBalance ⟨.err "boom", .array [], none⟩ = intF 0 :=
  claim_C10.1 _ "boom" rfl
    ⟨fun rs h => by cases h; rfl, fun v h => by cases h⟩

/-! ## Claim C1: probe-failure handling in the credit-state read -/

/-- C1 counterexample: the probe failing with an error that is not of the
"resource not found" class (here a plain network timeout, matching none of the
three markers the catch block checks) still yields the inactive all-zero
snapshot — not the null the claim requires for other error classes. -/
theorem claim_C1_counterexample :
    getCreditLineInfo ⟨.err "network timeout", .err "network timeout"⟩
      = some zeroCreditPosition ∧
    some zeroCreditPosition ≠ (none : Option CreditPosition) ∧
    strContains "network timeout" "Failed to borrow global resource" = false ∧
    strContains "network timeout" "resource_not_found" = false ∧
    strContains "network timeout" "Resource not found" = false := by
  decide

/-- C1 amended: a probe failure of any error class yields the inactive
all-zero snapshot; the read returns null exactly when the probe succeeds and
the credit-info query fails with an error not marked as a missing function. -/
theorem claim_C1_amended (c : CreditChain) :
    ((∃ m, c.isPausedResult = .err m) →
      getCreditLineInfo c = some zeroCreditPosition) ∧
    (∀ b m, c.isPausedResult = .ok b → c.creditInfoResult = .err m →
      (strContains m "Function not found" || strContains m "FUNCTION_NOT_FOUND") = false →
      getCreditLineInfo c = none) ∧
    (∀ b m, c.isPausedResult = .ok b → c.creditInfoResult = .err m →
      (strContains m "Function not found" || strContains m "FUNCTION_NOT_FOUND") = true →
      getCreditLineInfo c = some zeroCreditPosition) := by
  refine ⟨?_, ?_, ?_⟩
  · rintro ⟨m, hm⟩
    unfold getCreditLineInfo checkCreditManagerInitialized
    rw [hm]
    rfl
  · intro b m hok herr hmarker
    unfold getCreditLineInfo checkCreditManagerInitialized
    rw [hok, herr]
    simp [hmarker]
  · intro b m hok herr hmarker
    unfold getCreditLineInfo checkCreditManagerInitialized
    rw [hok, herr]
    simp [hmarker]

/-- Witness for C1 amended: the three branches at concrete chains. -/
theorem claim_C1_witness :
    getCreditLineInfo ⟨.err "probe down", .ok rawWithDebt⟩ = some zeroCreditPosition ∧
    getCreditLineInfo ⟨.ok false, .err "rate limited"⟩ = none ∧
    getCreditLineInfo ⟨.ok false, .err "Function not found"⟩ = some zeroCreditPosition :=
  ⟨(claim_C1_amended _).1 ⟨_, rfl⟩,
   (claim_C1_amended _).2.1 false "rate limited" rfl rfl (by decide),
   (claim_C1_amended _).2.2 false "Function not found" rfl rfl (by decide)⟩

/-! ## Claim C3: derived-field invariants of every credit snapshot -/

/-- C3: every snapshot the credit-state reader produces satisfies
`currentDebt = borrowed + interestAccrued` and
`availableCredit = max(0, creditLimit - currentDebt)` (as the double
arithmetic the code performs), and `availableCredit` is never negative,
whatever raw values the ledger returned. -/
theorem claim_C3 (c : CreditChain) (pos : CreditPosition)
    (h : getCreditLineInfo c = some pos) :
    pos.currentDebt = jsAdd pos.borrowed pos.interestAccrued ∧
    pos.availableCredit = jsMax (intF 0) (jsSub pos.creditLimit pos.currentDebt) ∧
    jsLtB pos.availableCredit (intF 0) = false := by
  unfold getCreditLineInfo at h
  by_cases hc : checkCreditManagerInitialized c = false
  · rw [if_pos hc] at h
    cases h
    refine ⟨by decide, by decide, by decide⟩
  · rw [if_neg hc] at h
    cases hq : c.creditInfoResult with
    | ok raw =>
      rw [hq] at h
      cases h
      refine ⟨rfl, rfl, jsMax_zero_not_lt_zero _⟩
    | err msg =>
      rw [hq] at h
      dsimp only at h
      by_cases hmk : (strContains msg "Function not found"
          || strContains msg "FUNCTION_NOT_FOUND") = true
      · rw [if_pos hmk] at h
        cases h
        refine ⟨by decide, by decide, by decide⟩
      · rw [if_neg hmk] at h
        cases h

/-- The snapshot read from the sample indebted chain. -/
def samplePosition : CreditPosition :=
  (getCreditLineInfo chainWithDebt).getD zeroCreditPosition

/-- Witness for C3 at the sample indebted chain. -/
theorem claim_C3_witness :
    samplePosition.currentDebt
      = jsAdd samplePosition.borrowed samplePosition.interestAccrued ∧
    samplePosition.availableCredit
      = jsMax (intF 0) (jsSub samplePosition.creditLimit samplePosition.currentDebt) ∧
    jsLtB samplePosition.availableCredit (intF 0) = false :=
  claim_C3 chainWithDebt samplePosition (by decide)

/-! ## Claim C8: activity reconciliation -/

/-- A successful transaction holding one Borrowed event whose borrower field
is the empty string. -/
def emptyBorrowerEvent : ChainEvent :=
  { type := CONTRACT_ADDRESS ++ "::credit_manager::BorrowedEvent",
    borrower := some "", amount := some "1000000",
    principalAmount := none, interestAmount := none, collateralAmount := none }

/-- The transaction wrapping `emptyBorrowerEvent`. -/
def emptyBorrowerTxn : ChainTxn :=
  { success := true, events := some [emptyBorrowerEvent],
    timestamp := some "0", version := some "42" }

/-- C8 counterexample: an event whose borrower field (the empty string)
differs from the queried address still produces a record — the borrower check
`event.data?.borrower && ...` skips falsy borrower fields, so the empty string
passes. -/
theorem claim_C8_counterexample :
    (getRecentTransactions (intF 0) "0xaaa" 20 (some [emptyBorrowerTxn])).length = 1 ∧
    (getRecentTransactions (intF 0) "0xaaa" 20 (some [emptyBorrowerTxn])).map (·.type)
      = [.borrow] ∧
    emptyBorrowerEvent.borrower = some "" ∧ ("" : String) ≠ "0xaaa" := by
  decide

/-- C8 amended: the reconciler returns at most `limit` records, equal to the
per-transaction normalization truncated to `limit` (hence in source order);
transactions with the failure flag set contribute nothing, and an event whose
borrower field is present, non-empty and different from the queried address is
dropped. -/
theorem claim_C8_amended (now : JSNum) (addr : String) (limit : ℕ)
    (txns : List ChainTxn) :
    (getRecentTransactions now addr limit (some txns)).length ≤ limit ∧
    getRecentTransactions now addr limit (some txns)
      = (txns.flatMap (txnRecords now addr)).take limit ∧
    (∀ t, t.success = false → txnRecords now addr t = []) ∧
    (∀ t e b, e.borrower = some b → b ≠ "" → b ≠ addr →
      eventToRecord now addr t e = none) := by
  refine ⟨?_, ?_, ?_, ?_⟩
  · show ((processTxns now addr limit txns []).take limit).length ≤ limit
    rw [List.length_take]
    exact min_le_left _ _
  · show (processTxns now addr limit txns []).take limit = _
    simpa using processTxns_take now addr limit txns []
  · intro t ht
    unfold txnRecords
    cases he : t.events with
    | none => rfl
    | some evs =>
      dsimp only
      rw [if_pos ht]
  · intro t e b hb hne hnaddr
    unfold eventToRecord
    cases hm : eventTypeMap e.type with
    | none => rfl
    | some k =>
      dsimp only
      rw [hb]
      simp [hne, hnaddr]

/-- Witness for C8 amended: the failure-flag and borrower-mismatch
implications at concrete data, and the truncation applied to the sample
transaction list. -/
theorem claim_C8_witness :
    txnRecords (intF 0) "0xaaa"
      { success := false, events := some [emptyBorrowerEvent],
        timestamp := some "0", version := none } = [] ∧
    eventToRecord (intF 0) "0xaaa" emptyBorrowerTxn
      { type := CONTRACT_ADDRESS ++ "::credit_manager::BorrowedEvent",
        borrower := some "0xbbb", amount := some "1000000",
        principalAmount := none, interestAmount := none,
        collateralAmount := none } = none ∧
    (getRecentTransactions (intF 0) "0xaaa" 20 (some [emptyBorrowerTxn])).length ≤ 20 :=
  ⟨(claim_C8_amended (intF 0) "0xaaa" 20 []).2.2.1 _ rfl,
   (claim_C8_amended (intF 0) "0xaaa" 20 []).2.2.2 _ _ "0xbbb" rfl
     (by decide) (by decide),
   (claim_C8_amended (intF 0) "0xaaa" 20 [emptyBorrowerTxn]).1⟩

/-! ## Claim C7: interest accrual -/

/-- C7 counterexample: the claim asserts a strictly positive accrual after the
grace period for every principal; at principal 0 (rate 1500 bps, borrow time
0, default grace 2 592 000, current time 2 592 001 — one second past the
grace end) the function returns 0, which is not strictly positive. -/
theorem claim_C7_counterexample :
    calculateAccruedInterest (intF 0) (intF 1500) (intF 0) (intF 2592000)
        (intF 2592001) = intF 0 ∧
    jsGtB (calculateAccruedInterest (intF 0) (intF 1500) (intF 0) (intF 2592000)
        (intF 2592001)) (intF 0) = false := by
  decide

/-- C7 amended: within the grace window the accrual is 0; past it the function
returns the double evaluation of
`principal * (annualRateBps / 10000) / 31536000 * elapsed`, which is strictly
positive whenever the principal and the rate are positive (and the inputs are
actual numbers); in exact arithmetic the accrual past the grace end is linear
and strictly increasing in the current time. -/
theorem claim_C7_amended :
    (∀ p r t0 g ct : JSNum, jsLeB ct (jsAdd t0 g) = true →
      calculateAccruedInterest p r t0 g ct = intF 0) ∧
    (∀ p r t0 g ct : JSNum, jsLeB ct (jsAdd t0 g) = false →
      calculateAccruedInterest p r t0 g ct
        = jsMul (jsMul p (jsDiv (jsDiv r (intF 10000)) (intF 31536000)))
            (jsSub ct (jsAdd t0 g))) ∧
    (∀ p r t0 g ct : JSNum, jsGtB p (intF 0) = true → jsGtB r (intF 0) = true →
      t0 ≠ .nan → g ≠ .nan → ct ≠ .nan →
      jsLeB ct (jsAdd t0 g) = false →
      jsGtB (calculateAccruedInterest p r t0 g ct) (intF 0) = true) ∧
    (∀ p r t0 g ct1 ct2 : ℚ, 0 < p → 0 < r → t0 + g < ct1 → ct1 < ct2 →
      accruedInterestExact p r t0 g ct1 < accruedInterestExact p r t0 g ct2 ∧
      accruedInterestExact p r t0 g ct2 - accruedInterestExact p r t0 g ct1
        = p * (r / 10000 / 31536000) * (ct2 - ct1)) := by
  refine ⟨?_, ?_, ?_, ?_⟩
  · intro p r t0 g ct h
    simp [calculateAccruedInterest, h]
  · intro p r t0 g ct h
    simp [calculateAccruedInterest, h]
  · intro p r t0 g ct hp hr ht0 hg hct hle
    obtain ⟨mp, ep, hpe, hmp⟩ := jsGtB_zero_shape hp
    obtain ⟨mr, er, hre, hmr⟩ := jsGtB_zero_shape hr
    match t0, ht0, g, hg, ct, hct with
    | .num mt0 et0, _, .num mg eg, _, .num mct ect, _ =>
      simp only [calculateAccruedInterest, hle, Bool.false_eq_true, if_false]
      have hG : ∃ qg exg, jsAdd (.num mt0 et0) (.num mg eg) = .num qg exg := by
        simp only [jsAdd, mkF]
        split_ifs <;> exact ⟨_, _, rfl⟩
      obtain ⟨qg, exg, hGe⟩ := hG
      rw [hGe] at hle ⊢
      have hlt := jsLeB_false_lt hle
      obtain ⟨mt, ext, hte, hmt⟩ := jsSub_pos_of_lt hlt
      rw [hte]
      obtain ⟨q4, ex4, h10e, h10⟩ := mkF_pos (m := 10000) 0 (by norm_num)
      have h10e' : intF 10000 = .num q4 ex4 := h10e
      rw [hre, h10e']
      obtain ⟨qr, exr, hrre, hqr⟩ := jsDiv_pos hmr h10
      rw [hrre]
      obtain ⟨qy, exy, hye, hqy⟩ := mkF_pos (m := 31536000) 0 (by norm_num)
      have hye' : intF 31536000 = .num qy exy := hye
      rw [hye']
      obtain ⟨qd, exd, hde, hqd⟩ := jsDiv_pos hqr hqy
      rw [hde, hpe]
      obtain ⟨qm, exm, hme, hqm⟩ := jsMul_pos hmp hqd
      rw [hme]
      obtain ⟨qf, exf, hfe, hqf⟩ := jsMul_pos hqm hmt
      rw [hfe]
      exact (jsGtB_zero_iff qf exf).mpr hqf
  · intro p r t0 g ct1 ct2 hp hr h1 h2
    unfold accruedInterestExact
    rw [if_neg (by linarith), if_neg (by linarith)]
    have hc : 0 < r / 10000 / 31536000 := by positivity
    constructor
    · exact mul_lt_mul_of_pos_left (by linarith) (mul_pos hp hc)
    · ring

/-- Witness for C7 amended at concrete inputs: zero inside the grace window;
the formula shape, positivity at principal 1000 USDC and 1500 bps one month
past the grace end, and exact-arithmetic monotonicity at concrete times. -/
theorem claim_C7_witness :
    calculateAccruedInterest (intF 0) (intF 0) (intF 0) (intF 0) (intF 0) = intF 0 ∧
    calculateAccruedInterest (intF 1000) (intF 1500) (intF 0) (intF 2592000)
        (intF 5184000)
      = jsMul (jsMul (intF 1000) (jsDiv (jsDiv (intF 1500) (intF 10000))
          (intF 31536000))) (jsSub (intF 5184000) (jsAdd (intF 0) (intF 2592000))) ∧
    jsGtB (calculateAccruedInterest (intF 1000) (intF 1500) (intF 0)
        (intF 2592000) (intF 5184000)) (intF 0) = true ∧
    accruedInterestExact 1000 1500 0 2592000 2592001
      < accruedInterestExact 1000 1500 0 2592000 2592002 :=
  ⟨claim_C7_amended.1 _ _ _ _ _ (by decide),
   claim_C7_amended.2.1 _ _ _ _ _ (by decide),
   claim_C7_amended.2.2.1 (intF 1000) (intF 1500) (intF 0) (intF 2592000)
     (intF 5184000) (by decide) (by decide) (by decide) (by decide) (by decide)
     (by decide),
   (claim_C7_amended.2.2.2 1000 1500 0 2592000 2592001 2592002
     (by norm_num) (by norm_num) (by norm_num) (by norm_num)).1⟩

/-! ## Claim C2: the unit-conversion round trip -/

/-- C2 counterexample: the decimal 0.000249 has six fractional digits, yet
`unitsToUsdc(usdcToUnits(0.000249))` is the double 0.000248, not 0.000249:
the binary64 product 0.000249 * 1e6 is 248.99999999999997, so the floor drops
to 248.  (The JavaScript literal 0.000249 denotes the double nearest to
249/10^6, written here as `jsDiv (intF 249) (intF 1000000)`, which is the
same correctly rounded value.) -/
theorem claim_C2_counterexample :
    unitsToUsdc (.str (usdcToUnits (jsDiv (intF 249) (intF 1000000))))
      ≠ jsDiv (intF 249) (intF 1000000) ∧
    unitsToUsdc (.str (usdcToUnits (jsDiv (intF 249) (intF 1000000))))
      = jsDiv (intF 248) (intF 1000000) := by
  decide

/-- C2 amended: in exact rational arithmetic the round-trip
`fromBaseUnits(toBaseUnits(x))` is the identity on every non-negative decimal
`x = k/10^6` with at most six fractional digits; the binary64 arithmetic the
code performs only approximates this and differs at 0.000249. -/
theorem claim_C2_amended (k : ℕ) :
    unitsToUsdcExact (usdcToUnitsExact ((k : ℚ) / 1000000)) = (k : ℚ) / 1000000 := by
  have h1 : ((k : ℚ) / 1000000) * 1000000 = (k : ℚ) :=
    div_mul_cancel₀ _ (by norm_num)
  rw [usdcToUnitsExact, unitsToUsdcExact, h1, Int.floor_natCast]
  norm_num

/-! ## Claim C9: toBaseUnits on NaN and negative inputs -/

/-- C9 counterexample: on NaN the function returns the string "NaN" — neither
"0" nor any '-'-signed numeric string — because `Math.floor(NaN * 1e6)` is
NaN and `NaN.toString()` is "NaN". -/
theorem claim_C9_counterexample :
    usdcToUnits JSNum.nan = "NaN" ∧ ("NaN" : String) ≠ "0" ∧
    (∀ s : String, ("NaN" : String) ≠ "-" ++ s) :=
  ⟨rfl, by decide, nan_ne_dash_append⟩

/-- C9 amended: `usdcToUnits` renders the floor of the double product
`amount * 1e6` with Number::toString semantics and never throws (it is a
total function); a negative input silently yields a '-'-signed numeric
string — plain decimal below magnitude 10^21 (-5 gives "-5000000"),
exponential notation at or above (-10^15 gives "-1e+21") — and a NaN input
yields the string "NaN". -/
theorem claim_C9_amended :
    (∀ x : JSNum, usdcToUnits x = jsNumToString (jsFloor (jsMul x (intF 1000000)))) ∧
    (∀ m e : ℤ, m < 0 → ∃ s : String, usdcToUnits (.num m e) = "-" ++ s) ∧
    usdcToUnits JSNum.nan = "NaN" ∧
    usdcToUnits (intF (-5)) = "-5000000" ∧
    usdcToUnits (intF (-1000000000000000)) = "-1e+21" := by
  refine ⟨fun _ => rfl, ?_, rfl, by decide, by decide⟩
  intro m e hm
  have h6 : intF 1000000 = .num 8589934592000000 (-33) := by decide
  unfold usdcToUnits
  rw [h6]
  simp only [jsMul]
  obtain ⟨q, ex, hq, hqneg⟩ :=
    mkF_neg (m := m * 8589934592000000) (e + -33)
      (mul_neg_of_neg_of_pos hm (by norm_num : (0:ℤ) < 8589934592000000))
  rw [hq]
  simp only [jsFloor]
  split_ifs with hex
  · have hfn : floorInt (.num q ex) < 0 := floorInt_neg hqneg
    have hgoal : jsNumToString (.num q ex)
        = "-" ++ jsPosString (floorInt (.num q ex)).natAbs
            (if 0 ≤ ex then 2 ^ ex.toNat else 0)
            (decide (q % 2 = 0)) (decide (q.natAbs = 2 ^ 52)) := by
      simp only [jsNumToString]
      rw [if_neg (show ¬ floorInt (.num q ex) = 0 by omega), if_pos hfn]
    exact ⟨_, hgoal⟩
  · have hed : Int.ediv q (2 ^ (-ex).toNat) < 0 :=
      Int.ediv_neg' hqneg (by positivity)
    obtain ⟨q2, ex2, hq2, hq2neg⟩ := mkF_neg 0 hed
    rw [hq2]
    have hfn : floorInt (.num q2 ex2) < 0 := floorInt_neg hq2neg
    have hgoal : jsNumToString (.num q2 ex2)
        = "-" ++ jsPosString (floorInt (.num q2 ex2)).natAbs
            (if 0 ≤ ex2 then 2 ^ ex2.toNat else 0)
            (decide (q2 % 2 = 0)) (decide (q2.natAbs = 2 ^ 52)) := by
      simp only [jsNumToString]
      rw [if_neg (show ¬ floorInt (.num q2 ex2) = 0 by omega), if_pos hfn]
    exact ⟨_, hgoal⟩

/-- Witness for C9 amended: the negative branch at the double -1. -/
theorem claim_C9_witness :
    ∃ s : String, usdcToUnits (.num (-4503599627370496) (-52)) = "-" ++ s :=
  claim_C9_amended.2.1 (-4503599627370496) (-52) (by norm_num)

end AionPay
